import Mathlib

/-!
Verification of the esp-bluedroid BLE GATT peripheral framework.

This file gives a shallow embedding of the core of the framework
(`src/gatts/mod.rs`, `src/gatts/attribute.rs`, `src/gatts/attribute/defaults.rs`,
`src/gatts/characteristic.rs`, `src/gatts/descriptor.rs`, `src/gap/mod.rs`,
`src/gatts/app.rs`, `src/gatts/service.rs`) and proves or refutes the
specification claims about it.

Modelling conventions:
- Rust `u16` values are `Nat`s below 65536; integer casts that wrap
  (`as u16`) are modelled with an explicit `% 65536`.
- `HashMap<K, V>` registries are modelled as functions `Nat → Option V`;
  `HashMap::insert` (which replaces and returns the old entry) and
  `HashMap::remove` are `mapInsert` / `mapRemove`.
- fallible Rust code (`anyhow::Result`) is modelled with `RustResult`;
  a Rust slice-index panic is modelled as a distinct outcome, never as a value.
-/

/-- Result type modelling Rust `anyhow::Result<T>` (the error payload is
irrelevant to the claims, so it is erased). -/
inductive RustResult (α : Type) : Type
  | ok (v : α)
  | err
  deriving DecidableEq, Repr

/-- ESP-IDF constant `ESP_GATT_MAX_ATTR_LEN` (from `esp_idf_svc::sys`,
external to the repository; its ESP-IDF value is 600). -/
def ESP_GATT_MAX_ATTR_LEN : Nat := 600

/-- Rust `&bytes[a..b]` for `a ≤ b ≤ bytes.len()`. -/
def listSlice (l : List Nat) (a b : Nat) : List Nat := (l.take b).drop a

/-- `HashMap::insert` at the level of the map contents: the new binding
replaces any previous one. -/
def mapInsert {α : Type} (m : Nat → Option α) (k : Nat) (v : α) : Nat → Option α :=
  fun k2 => if k2 = k then some v else m k2

/-- `HashMap::remove` at the level of the map contents. -/
def mapRemove {α : Type} (m : Nat → Option α) (k : Nat) : Nat → Option α :=
  fun k2 => if k2 = k then none else m k2

/-! ## Read dispatch (`GattsInner::handle_gatts_global_event`, Read arm)

`src/gatts/mod.rs` lines 287–355.  The relevant state: the global attribute
registry `attributes : Handle → attribute` (an attribute contributes its
current serialized bytes via `get_bytes`), and the per-interface apps map,
each app holding a connections map whose entries carry `mtu : Option u16`. -/

/-- Connection state as used by the Read arm: only the negotiated MTU
matters (`ConnectionInner.mtu`). -/
structure ConnState : Type where
  mtu : Option Nat

/-- App state as used by the Read arm: the `connections` map keyed by
connection id. -/
structure AppState : Type where
  connections : Nat → Option ConnState

/-- The state consulted by the Read arm: the global handle-indexed
attribute registry (each attribute represented by its current serialized
bytes) and the interface-indexed apps map. -/
structure ReadCtx : Type where
  attributes : Nat → Option (List Nat)
  apps : Nat → Option AppState

/-- Outcome of the Read arm of the dispatcher. `panicked` records a Rust
slice-index panic (`&bytes[offset..end_index]` with `offset > end_index`);
`errorResponse` is the path that sends a response with `GattStatus::Error`;
`okResponse v` is a sent Read Response with `GattStatus::Ok` and value `v`. -/
inductive ReadOutcome : Type
  | noResponse
  | errorResponse
  | panicked
  | okResponse (value : List Nat)
  deriving DecidableEq, Repr

/-- The Read arm of `GattsInner::handle_gatts_global_event`
(`src/gatts/mod.rs:287-355`), translated line by line:
look up the attribute, get its bytes, look up the app, the connection and
its MTU (each failure sends an Error response); then
`effective_mtu_for_data = mtu.saturating_sub(1)` and
`end_index = (offset + effective_mtu_for_data).min(bytes.len() as u16)
             .min(ESP_GATT_MAX_ATTR_LEN as u16)`;
the `as u16` casts are the `% 65536` below.  The final
`&bytes[offset as usize..end_index]` panics when `offset > end_index`. -/
def handle_read_event (st : ReadCtx) (interface conn_id handle offset : Nat)
    (need_rsp : Bool) : ReadOutcome :=
  if !need_rsp then .noResponse
  else
    match st.attributes handle with
    | none => .errorResponse
    | some bytes =>
      match st.apps interface with
      | none => .errorResponse
      | some app =>
        match app.connections conn_id with
        | none => .errorResponse
        | some conn =>
          match conn.mtu with
          | none => .errorResponse
          | some mtu =>
            let effective_mtu_for_data := mtu - 1
            let end_index :=
              min ((offset + effective_mtu_for_data) % 65536)
                (min (bytes.length % 65536) ESP_GATT_MAX_ATTR_LEN)
            if offset ≤ end_index then .okResponse (listSlice bytes offset end_index)
            else .panicked

/-- Concrete state for the C1 counterexample: handle 1 holds a
65536-byte value (every byte 0xAB = 171), interface 0 has connection 0
with negotiated MTU 23. -/
def c1BigState : ReadCtx :=
  { attributes := fun h => if h = 1 then some (List.replicate 65536 171) else none
    apps := fun i => if i = 0 then
        some ⟨fun c => if c = 0 then some ⟨some 23⟩ else none⟩ else none }

/-- Concrete state for the C1 witness: handle 1 holds a 40-byte value
(every byte 0xAB = 171), interface 0 has connection 0 with MTU 23. -/
def c1SmallState : ReadCtx :=
  { attributes := fun h => if h = 1 then some (List.replicate 40 171) else none
    apps := fun i => if i = 0 then
        some ⟨fun c => if c = 0 then some ⟨some 23⟩ else none⟩ else none }

/-- Concrete state for C2: handle 1 holds a 40-byte value, interface 0 has
connection 0 with negotiated MTU 23. -/
def c2State : ReadCtx :=
  { attributes := fun h => if h = 1 then some (List.replicate 40 171) else none
    apps := fun i => if i = 0 then
        some ⟨fun c => if c = 0 then some ⟨some 23⟩ else none⟩ else none }

/-- C1 (amended): for a Read with need_rsp on a registered attribute, a
known connection with negotiated MTU m, and offset at most the value
length, PROVIDED the value is shorter than 65536 bytes, offset + (m-1)
does not overflow u16, and offset is at most ESP_GATT_MAX_ATTR_LEN, the
dispatcher sends an Ok Read Response whose value is
bytes[offset .. min(offset + (m-1), len(bytes), ESP_GATT_MAX_ATTR_LEN)]. -/
theorem c1_read_response (st : ReadCtx) (interface conn_id handle offset mtu : Nat)
    (bytes : List Nat) (app : AppState) (conn : ConnState)
    (hattr : st.attributes handle = some bytes)
    (happ : st.apps interface = some app)
    (hconn : app.connections conn_id = some conn)
    (hmtu : conn.mtu = some mtu)
    (hoff : offset ≤ bytes.length)
    (hlen : bytes.length < 65536)
    (hsum : offset + (mtu - 1) < 65536)
    (hoffmax : offset ≤ ESP_GATT_MAX_ATTR_LEN) :
    handle_read_event st interface conn_id handle offset true
      = .okResponse
          (listSlice bytes offset
            (min (offset + (mtu - 1)) (min bytes.length ESP_GATT_MAX_ATTR_LEN))) := by
  unfold handle_read_event
  simp only [hattr, happ, hconn, hmtu]
  have h1 : (offset + (mtu - 1)) % 65536 = offset + (mtu - 1) := Nat.mod_eq_of_lt hsum
  have h2 : bytes.length % 65536 = bytes.length := Nat.mod_eq_of_lt hlen
  simp only [h1, h2]
  have hle : offset ≤ min (offset + (mtu - 1)) (min bytes.length ESP_GATT_MAX_ATTR_LEN) := by
    omega
  simp [hle]

/-- C1 witness: with MTU 23, a 40-byte value of 0xAB and offset 0, the
response value is exactly the first 22 bytes of the value. -/
theorem c1_read_response_witness :
    handle_read_event c1SmallState 0 0 1 0 true
      = .okResponse
          (listSlice (List.replicate 40 171) 0
            (min (0 + (23 - 1)) (min (List.replicate 40 171 : List Nat).length
              ESP_GATT_MAX_ATTR_LEN)))
    ∧ listSlice (List.replicate 40 171) 0
        (min (0 + (23 - 1)) (min (List.replicate 40 171 : List Nat).length
          ESP_GATT_MAX_ATTR_LEN)) = List.replicate 22 171 := by
  constructor
  · exact c1_read_response c1SmallState 0 0 1 0 23 (List.replicate 40 171)
      ⟨fun c => if c = 0 then some ⟨some 23⟩ else none⟩ ⟨some 23⟩
      rfl rfl rfl rfl (Nat.zero_le _) (by simp) (by decide) (Nat.zero_le _)
  · simp [listSlice, ESP_GATT_MAX_ATTR_LEN, List.take_replicate]

/-- C1 counterexample: the claim as stated fails on a 65536-byte value.
With MTU 23 and offset 0 the claim demands the first 22 bytes, but
`bytes.len() as u16` wraps to 0, so the code sends an Ok response with an
empty value. -/
theorem c1_big_value_counterexample :
    handle_read_event c1BigState 0 0 1 0 true = .okResponse []
    ∧ listSlice (List.replicate 65536 171) 0
        (min (0 + (23 - 1)) (min (List.replicate 65536 171 : List Nat).length
          ESP_GATT_MAX_ATTR_LEN)) = List.replicate 22 171
    ∧ ([] : List Nat) ≠ List.replicate 22 171 := by
  refine ⟨?_, ?_, by simp⟩
  · unfold handle_read_event
    simp only [show c1BigState.attributes 1 = some (List.replicate 65536 171) from rfl,
      show c1BigState.apps 0
          = some ⟨fun c => if c = 0 then some ⟨some 23⟩ else none⟩ from rfl,
      List.length_replicate]
    norm_num [listSlice]
  · simp only [List.length_replicate, ESP_GATT_MAX_ATTR_LEN, listSlice, List.take_replicate,
      List.drop_zero]
    norm_num

/-- C2: a Read with need_rsp whose offset exceeds the value length does
not return an empty Ok response: the code computes `end_index = 40 < 41 =
offset` and the slice `&bytes[41..40]` panics. -/
theorem c2_offset_beyond_len_panics :
    handle_read_event c2State 0 0 1 41 true = .panicked := by
  decide

/-! ## Write and ExecWrite dispatch (`GattsInner::handle_gatts_global_event`)

`src/gatts/mod.rs` lines 356–466.  The state consulted here is the
prepare-write buffer map `write_buffer : TransferId → PrepareWriteBuffer`
and the global attribute registry.  An attribute value cell is represented
by its current serialized bytes together with its from-bytes codec:
`AnyAttribute::update_from_bytes` runs `T::from_bytes` and then stores the
decoded value, whose serialization is `decode bytes` (for `BytesAttr`-like
codecs `decode = some`). -/

/-- `PrepareWriteBuffer { value: Vec<u8>, handle: Handle }`
(`src/gatts/mod.rs:35-38`). -/
structure PrepareWriteBuffer : Type where
  handle : Nat
  value : List Nat
  deriving DecidableEq, Repr

/-- An entry of the global attribute registry as the Write/ExecWrite arms
use it: `decode b` is `some canon` when `T::from_bytes(b)` succeeds and the
stored value re-serializes to `canon`, and `none` when the codec rejects
`b`. `bytes` is the current serialized value. -/
structure AttrCell : Type where
  decode : List Nat → Option (List Nat)
  bytes : List Nat

/-- The mutable server state touched by the Write/ExecWrite arms. -/
structure ServerState : Type where
  write_buffer : Nat → Option PrepareWriteBuffer
  attributes : Nat → Option AttrCell

/-- `write_buffer.entry(trans_id).or_insert(PrepareWriteBuffer { value: Vec::new(), handle })`
(`src/gatts/mod.rs:373-376`): the existing buffer, or a fresh empty one
recording this event's handle. -/
def or_insert_buffer (st : ServerState) (trans_id handle : Nat) : PrepareWriteBuffer :=
  match st.write_buffer trans_id with
  | some b => b
  | none => ⟨handle, []⟩

/-- The grow-only `temp_buffer.value.resize(offset + value.len(), 0)`
guarded by `if temp_buffer.value.len() < offset + value.len()`
(`src/gatts/mod.rs:378-380`). -/
def grow_buffer (bv : List Nat) (offset len : Nat) : List Nat :=
  if bv.length < offset + len then bv ++ List.replicate (offset + len - bv.length) 0
  else bv

/-- `temp_buffer.value[offset..offset + value.len()].copy_from_slice(&value)`
(`src/gatts/mod.rs:381-382`), on the grown buffer. -/
def splice_chunk (bv v : List Nat) (offset : Nat) : List Nat :=
  (grow_buffer bv offset v.length).take offset ++ v
    ++ (grow_buffer bv offset v.length).drop (offset + v.length)

/-- The Write arm (`src/gatts/mod.rs:356-419`), state effect and result:
look up or create the prepare buffer for `trans_id`, grow it and splice
the chunk; then, when `is_prep == false`, look up the attribute by the
event handle, `update_from_bytes(&temp_buffer.value)` and remove the
buffer.  The returned Bool is `result.is_ok()` (which selects
`GattStatus::Ok`/`Error` for the response).  On the error paths the
spliced buffer stays in the map, exactly as in the source. -/
def handle_write_event (st : ServerState) (trans_id handle offset : Nat)
    (is_prep : Bool) (value : List Nat) : ServerState × Bool :=
  let buf := or_insert_buffer st trans_id handle
  let spliced := splice_chunk buf.value value offset
  let st1 : ServerState :=
    { st with write_buffer := mapInsert st.write_buffer trans_id ⟨buf.handle, spliced⟩ }
  if is_prep then (st1, true)
  else
    match st1.attributes handle with
    | none => (st1, false)
    | some cell =>
      match cell.decode spliced with
      | none => (st1, false)
      | some canon =>
        ({ write_buffer := mapRemove st1.write_buffer trans_id,
           attributes := mapInsert st1.attributes handle ⟨cell.decode, canon⟩ }, true)

/-- The ExecWrite arm (`src/gatts/mod.rs:420-466`), state effect and
result: look up the buffer by `trans_id` (error if absent); when
`canceled == false`, look up the attribute by the buffer's recorded
handle, `update_from_bytes(&temp_buffer.value)` and remove the buffer.
When `canceled == true` the source does nothing further: the `remove` is
inside the `if !canceled` block, so the buffer stays in the map. -/
def handle_exec_write_event (st : ServerState) (trans_id : Nat)
    (canceled : Bool) : ServerState × Bool :=
  match st.write_buffer trans_id with
  | none => (st, false)
  | some buf =>
    if canceled then (st, true)
    else
      match st.attributes buf.handle with
      | none => (st, false)
      | some cell =>
        match cell.decode buf.value with
        | none => (st, false)
        | some canon =>
          ({ write_buffer := mapRemove st.write_buffer trans_id,
             attributes := mapInsert st.attributes buf.handle ⟨cell.decode, canon⟩ }, true)

lemma grow_buffer_le (bv : List Nat) (offset len : Nat) :
    offset + len ≤ (grow_buffer bv offset len).length := by
  unfold grow_buffer
  split
  · simp only [List.length_append, List.length_replicate]
    omega
  · omega

lemma splice_chunk_len (bv v : List Nat) (offset : Nat) :
    offset + v.length ≤ (splice_chunk bv v offset).length := by
  have h := grow_buffer_le bv offset v.length
  unfold splice_chunk
  simp only [List.length_append, List.length_take, List.length_drop]
  omega

lemma splice_chunk_at (bv v : List Nat) (offset : Nat) :
    ((splice_chunk bv v offset).drop offset).take v.length = v := by
  have h := grow_buffer_le bv offset v.length
  unfold splice_chunk
  rw [List.append_assoc,
    List.drop_left' (by simp only [List.length_take]; omega),
    List.take_left' rfl]

/-- C3: a prepared Write (is_prep = true) grows the buffer for its
transfer id to at least `offset + value.length`, splices the chunk at
`offset`, and leaves every attribute untouched; an ExecWrite with
`canceled = false` whose transfer id has a buffer applies the buffer bytes
to the attribute recorded in the buffer through its from-bytes codec and
removes the buffer. -/
theorem c3_prepared_write :
    (∀ (st : ServerState) (t h off : Nat) (v : List Nat),
      ∃ buf : PrepareWriteBuffer,
        (handle_write_event st t h off true v).1.write_buffer t = some buf
        ∧ off + v.length ≤ buf.value.length
        ∧ (buf.value.drop off).take v.length = v
        ∧ (handle_write_event st t h off true v).1.attributes = st.attributes
        ∧ (handle_write_event st t h off true v).2 = true)
    ∧ (∀ (st : ServerState) (t : Nat) (buf : PrepareWriteBuffer) (cell : AttrCell)
        (canon : List Nat),
        st.write_buffer t = some buf →
        st.attributes buf.handle = some cell →
        cell.decode buf.value = some canon →
        (handle_exec_write_event st t false).1.write_buffer t = none
        ∧ (handle_exec_write_event st t false).1.attributes buf.handle
            = some ⟨cell.decode, canon⟩
        ∧ (handle_exec_write_event st t false).2 = true) := by
  constructor
  · intro st t h off v
    refine ⟨⟨(or_insert_buffer st t h).handle,
      splice_chunk (or_insert_buffer st t h).value v off⟩, ?_, ?_, ?_, ?_, ?_⟩
    · simp [handle_write_event, mapInsert]
    · exact splice_chunk_len _ _ _
    · exact splice_chunk_at _ _ _
    · simp [handle_write_event]
    · simp [handle_write_event]
  · intro st t buf cell canon hb hc hd
    simp [handle_exec_write_event, hb, hc, hd, mapRemove, mapInsert]

/-- Initial state for the C3 witness: empty prepare-buffer map; handle 5
holds a bytes-codec attribute (from_bytes always succeeds and stores the
bytes as given, as `BytesAttr` does) with empty value. -/
def c3State0 : ServerState :=
  { write_buffer := fun _ => none
    attributes := fun h => if h = 5 then some ⟨fun b => some b, []⟩ else none }

/-- The C3 witness scenario state after the three prepared chunks:
transfer id 7, offsets 0/10/20, ten bytes of 0x01/0x02/0x03 each. -/
def c3Chunks : ServerState :=
  (handle_write_event
    (handle_write_event
      (handle_write_event c3State0 7 5 0 true (List.replicate 10 1)).1
      7 5 10 true (List.replicate 10 2)).1
    7 5 20 true (List.replicate 10 3)).1

/-- The 30-byte assembly expected by the C3 scenario. -/
def c3Assembled : List Nat :=
  List.replicate 10 1 ++ List.replicate 10 2 ++ List.replicate 10 3

/-- C3 witness: after three prepared chunks (offsets 0, 10, 20, ten bytes
of 0x01/0x02/0x03 each, transfer id 7) and ExecWrite(7, canceled=false),
the attribute holds the 30-byte concatenation and the buffer for id 7 is
gone. -/
theorem c3_prepared_write_witness :
    (handle_exec_write_event c3Chunks 7 false).1.write_buffer 7 = none
    ∧ (handle_exec_write_event c3Chunks 7 false).1.attributes 5
        = some ⟨fun b => some b, c3Assembled⟩
    ∧ (handle_exec_write_event c3Chunks 7 false).2 = true :=
  c3_prepared_write.2 c3Chunks 7 ⟨5, c3Assembled⟩ ⟨fun b => some b, []⟩ c3Assembled
    rfl rfl rfl

/-- State for C4: transfer id 8 has a prepare buffer recording handle 5
and the two bytes 0xFF 0xFF; handle 5 holds a bytes-codec attribute whose
current value is [1, 2]. -/
def c4State : ServerState :=
  { write_buffer := fun t => if t = 8 then some ⟨5, [255, 255]⟩ else none
    attributes := fun h => if h = 5 then some ⟨fun b => some b, [1, 2]⟩ else none }

/-- C4: an ExecWrite with canceled = true leaves the attribute unchanged,
but — contrary to the claim and to the specification — the prepare buffer
for the transfer id is NOT removed from the buffer map (the source only
removes it inside the `if !canceled` block); the event still reports
success. -/
theorem c4_cancel_keeps_buffer :
    (handle_exec_write_event c4State 8 true).1.write_buffer 8 = some ⟨5, [255, 255]⟩
    ∧ (handle_exec_write_event c4State 8 true).1.attributes 5
        = some ⟨fun b => some b, [1, 2]⟩
    ∧ (handle_exec_write_event c4State 8 true).2 = true
    ∧ some (⟨5, [255, 255]⟩ : PrepareWriteBuffer) ≠ none :=
  ⟨rfl, rfl, rfl, by simp⟩

/-! ## Indication on value update (`CharacteristicInner::handle_value_update`)

`src/gatts/characteristic.rs` lines 364–381 (`Characteristic::update_value`)
and 387–510 (`handle_value_update`).  `update_value` replaces the value and
calls `handle_value_update`, which iterates over the app's connections,
indicating each and awaiting its Confirm.  The iterator of per-connection
`anyhow::Result`s is collected into `results : anyhow::Result<()>` —
`collect` short-circuits at the first `Err`, so later connections are not
indicated — and then `results` is dropped: the function unconditionally
returns `Ok(())`. -/

/-- `ConnectionInner` as consulted by `handle_value_update`: the
connection id and the negotiated MTU (`link_role`, `address` and
`conn_params` are not consulted).  Connections are listed in the map's
iteration order. -/
structure ConnectionInner : Type where
  id : Nat
  mtu : Option Nat
  deriving DecidableEq, Repr

/-- One connection's result inside the `map` closure
(`characteristic.rs:445-506`): a connection without a negotiated MTU fails
before `indicate` is called; otherwise the outcome is that of awaiting the
Confirm event (`confirmOk c.id`: true when a Confirm with matching conn_id
and handle and status Ok arrives in time). -/
def per_connection_result (confirmOk : Nat → Bool) (c : ConnectionInner) : Bool :=
  match c.mtu with
  | none => false
  | some _ => confirmOk c.id

/-- `collect::<anyhow::Result<()>>()` over the per-connection results
(`characteristic.rs:443-507`): true iff every connection succeeded (the
collect stops at the first error). -/
def collect_results (confirmOk : Nat → Bool) : List ConnectionInner → Bool
  | [] => true
  | c :: rest => per_connection_result confirmOk c && collect_results confirmOk rest

/-- The connection ids for which `indicate` is actually invoked: `map` is
lazy and `collect::<Result<_>>` short-circuits, so iteration stops at the
first failing connection (an MTU-less connection fails before its own
`indicate`; a confirm failure stops the iteration after its `indicate`). -/
def indicated_connections (confirmOk : Nat → Bool) : List ConnectionInner → List Nat
  | [] => []
  | c :: rest =>
    match c.mtu with
    | none => []
    | some _ =>
      c.id :: (if confirmOk c.id then indicated_connections confirmOk rest else [])

/-- `handle_value_update`'s returned result (`characteristic.rs:387-510`):
the per-connection results are computed into `results`, which is then
dropped — the function returns `Ok(())` regardless. -/
def handle_value_update (conns : List ConnectionInner) (confirmOk : Nat → Bool) :
    RustResult Unit :=
  let _results := collect_results confirmOk conns
  .ok ()

/-- C5: with connections [id 0 without negotiated MTU, id 1 with MTU 23]
and every Confirm succeeding, the per-connection results contain a failure
and connection 1 is never indicated (the collect short-circuits), yet
`handle_value_update` — and with it `update_value` — returns Ok: errors
are neither aggregated into the result nor do later connections get
attempted, contrary to the claim. -/
theorem c5_errors_discarded :
    handle_value_update [⟨0, none⟩, ⟨1, some 23⟩] (fun _ => true) = .ok ()
    ∧ collect_results (fun _ => true) [⟨0, none⟩, ⟨1, some 23⟩] = false
    ∧ indicated_connections (fun _ => true) [⟨0, none⟩, ⟨1, some 23⟩] = [] := by
  refine ⟨rfl, rfl, rfl⟩

/-! ## Correlation router sender lifecycle

The router maps an event-kind discriminant to a bounded sender
(`gatts_events` in `src/gatts/mod.rs`, `gap_events` in `src/gap/mod.rs`).
Each correlated operation inserts a sender under its reply kind, issues
the host call and blocks on the receiver.  The functions below record the
net effect of each operation on the router map, read off the cited
sources; a sender is identified by a token (`tx`). -/

/-- Event-kind discriminants used as router keys. -/
inductive EventKind : Type
  | serviceRegistered
  | serviceCreated
  | serviceStarted
  | serviceStopped
  | characteristicAdded
  | descriptorAdded
  | responseComplete
  | confirm
  | advertisingStarted
  deriving DecidableEq, Repr

/-- The router map: event-kind to installed sender token. -/
def RouterMap : Type := EventKind → Option Nat

/-- Sender installation (`HashMap::insert` keyed by discriminant). -/
def routerInsert (m : RouterMap) (k : EventKind) (tx : Nat) : RouterMap :=
  fun k2 => if k2 = k then some tx else m k2

/-- Sender removal (`HashMap::remove` keyed by discriminant). -/
def routerRemove (m : RouterMap) (k : EventKind) : RouterMap :=
  fun k2 => if k2 = k then none else m k2

/-- `App::register_bluedroid` (`src/gatts/app.rs:46-123`): inserts the
`ServiceRegistered` sender, calls `gatts.register_app(id)?` — when that
host call fails the `?` returns before the removal — then waits, and
removes the sender after the wait loop on every outcome (success, bad
reply, bad status, timeout). -/
def routerAfterAppRegister (m : RouterMap) (tx : Nat) (hostCallOk : Bool) : RouterMap :=
  if hostCallOk then routerRemove (routerInsert m .serviceRegistered tx) .serviceRegistered
  else routerInsert m .serviceRegistered tx

/-- `Service::register_bluedroid` (`src/gatts/service.rs:187-267`):
inserts the `ServiceCreated` sender and returns on every path without
removing it. -/
def routerAfterServiceCreate (m : RouterMap) (tx : Nat) : RouterMap :=
  routerInsert m .serviceCreated tx

/-- `Service::start` (`src/gatts/service.rs:300-361`): inserts the
`ServiceStarted` sender; no path removes it. -/
def routerAfterServiceStart (m : RouterMap) (tx : Nat) : RouterMap :=
  routerInsert m .serviceStarted tx

/-- `Service::stop` (`src/gatts/service.rs:363-424`): inserts the
`ServiceStopped` sender; no path removes it. -/
def routerAfterServiceStop (m : RouterMap) (tx : Nat) : RouterMap :=
  routerInsert m .serviceStopped tx

/-- `Characteristic::register_bluedroid_characteristic`
(`src/gatts/characteristic.rs:226-320`): inserts the
`CharacteristicAdded` sender; no path removes it. -/
def routerAfterCharacteristicAdd (m : RouterMap) (tx : Nat) : RouterMap :=
  routerInsert m .characteristicAdded tx

/-- `Descriptor::register` (`src/gatts/descriptor.rs:131-229`): inserts
the `DescriptorAdded` sender; no path removes it. -/
def routerAfterDescriptorAdd (m : RouterMap) (tx : Nat) : RouterMap :=
  routerInsert m .descriptorAdded tx

/-- `GattsInner::send_response` (`src/gatts/mod.rs:228-270`): inserts the
`ResponseComplete` sender; no path removes it. -/
def routerAfterSendResponse (m : RouterMap) (tx : Nat) : RouterMap :=
  routerInsert m .responseComplete tx

/-- `CharacteristicInner::handle_value_update`
(`src/gatts/characteristic.rs:387-510`), the indicate path: inserts the
`Confirm` sender; no path removes it. -/
def routerAfterIndicate (m : RouterMap) (tx : Nat) : RouterMap :=
  routerInsert m .confirm tx

/-- `GapInner::start_advertising` (`src/gap/mod.rs:242-269`): inserts the
`AdvertisingStarted` sender into `gap_events`; no path (success, bad
status, unexpected event, timeout) removes it. -/
def routerAfterStartAdvertising (m : RouterMap) (tx : Nat) : RouterMap :=
  routerInsert m .advertisingStarted tx

/-- C6 (amended): app registration removes its correlated sender before
returning whenever the underlying host call succeeded (whatever the wait
outcome), but leaves it installed when the host call itself fails; every
other correlated operation — service create/start/stop, characteristic
add, descriptor add, send_response, indicate, start_advertising — leaves
its sender installed in the router map after returning. -/
theorem c6_sender_removal :
    (∀ (m : RouterMap) (tx : Nat),
        routerAfterAppRegister m tx true .serviceRegistered = none)
    ∧ (∀ (m : RouterMap) (tx : Nat),
        routerAfterAppRegister m tx false .serviceRegistered = some tx
        ∧ routerAfterServiceCreate m tx .serviceCreated = some tx
        ∧ routerAfterServiceStart m tx .serviceStarted = some tx
        ∧ routerAfterServiceStop m tx .serviceStopped = some tx
        ∧ routerAfterCharacteristicAdd m tx .characteristicAdded = some tx
        ∧ routerAfterDescriptorAdd m tx .descriptorAdded = some tx
        ∧ routerAfterSendResponse m tx .responseComplete = some tx
        ∧ routerAfterIndicate m tx .confirm = some tx
        ∧ routerAfterStartAdvertising m tx .advertisingStarted = some tx) := by
  constructor
  · intro m tx
    simp [routerAfterAppRegister, routerRemove]
  · intro m tx
    refine ⟨?_, ?_, ?_, ?_, ?_, ?_, ?_, ?_, ?_⟩ <;>
      simp [routerAfterAppRegister, routerAfterServiceCreate, routerAfterServiceStart,
        routerAfterServiceStop, routerAfterCharacteristicAdd, routerAfterDescriptorAdd,
        routerAfterSendResponse, routerAfterIndicate, routerAfterStartAdvertising,
        routerInsert]

/-- C6 counterexample: the claim says that after `start_advertising`
returns no sender remains under its reply kind; but starting from an empty
router, after a (successful) `start_advertising` the `AdvertisingStarted`
sender is still installed. -/
theorem c6_stale_sender_counterexample :
    routerAfterStartAdvertising (fun _ => none) 42 .advertisingStarted = some 42
    ∧ (some 42 : Option Nat) ≠ none := by
  refine ⟨rfl, by simp⟩

/-! ## Attribute update channel (`AttributeInner`)

`src/gatts/attribute.rs` lines 66–74 (`new`: `crossbeam_channel::bounded(1)`)
and 83–101 (`update`).  `update` replaces the value and then calls
`Sender::send` on the capacity-1 channel.  crossbeam's `send` on a full
bounded channel BLOCKS until a receiver takes a message; it never drops
the oldest element.  The channel is modelled by its queue contents; a send
that cannot complete is `none`. -/

/-- `crossbeam_channel::Sender::send` on a channel of capacity `cap`: the
message is appended when there is room, otherwise the call blocks
(modelled as `none`: no completed state exists until a receive happens). -/
def bounded_send {α : Type} (cap : Nat) (q : List α) (x : α) : Option (List α) :=
  if q.length < cap then some (q ++ [x]) else none

/-- `AttributeInner`: the typed value and the update channel's queue of
`(old, new)` snapshots (`updates_tx`/`updates_rx` of capacity 1). -/
structure AttributeInner (V : Type) : Type where
  value : V
  updates : List (V × V)
  deriving DecidableEq, Repr

/-- `AttributeInner::update` (`src/gatts/attribute.rs:83-101`): replace
the value, then `updates_tx.send(AttributeUpdate { old, new })` on the
capacity-1 channel.  `none` is the blocked send (the publisher is stuck
inside `send` holding the value write lock). -/
def AttributeInner.update {V : Type} (a : AttributeInner V) (new_value : V) :
    Option (AttributeInner V) :=
  match bounded_send 1 a.updates (a.value, new_value) with
  | some q => some ⟨new_value, q⟩
  | none => none

/-- C7 (amended): publishing an update while the capacity-1 channel is
empty succeeds: the value is replaced, the `(old, new)` snapshot is
enqueued and the operation returns Ok.  Publishing while the channel
already holds an unconsumed snapshot BLOCKS the publisher (crossbeam's
bounded `send` has no drop-oldest behaviour): no completed update state
exists until a consumer drains the channel. -/
theorem c7_update_channel :
    (∀ (V : Type) (v0 v1 : V),
        AttributeInner.update ⟨v0, []⟩ v1 = some ⟨v1, [(v0, v1)]⟩)
    ∧ (∀ (V : Type) (v0 v1 : V) (p : V × V) (rest : List (V × V)),
        AttributeInner.update ⟨v0, p :: rest⟩ v1 = none) := by
  constructor
  · intro V v0 v1
    simp [AttributeInner.update, bounded_send]
  · intro V v0 v1 p rest
    simp [AttributeInner.update, bounded_send]

/-- C7 counterexample: with one unconsumed snapshot in the channel, an
update does not complete with the oldest snapshot dropped and the newest
retained (as the claim states) — the send blocks. -/
theorem c7_blocking_counterexample :
    AttributeInner.update (V := Nat) ⟨1, [(0, 1)]⟩ 2 = none
    ∧ AttributeInner.update (V := Nat) ⟨1, [(0, 1)]⟩ 2 ≠ some ⟨2, [(1, 2)]⟩ := by
  refine ⟨rfl, by simp [AttributeInner.update, bounded_send]⟩

/-! ## Error paths that retain partial state (C9)

`Gatts::register_app` (`src/gatts/mod.rs:205-224`): after the bluedroid
registration, `apps.insert(interface, app)` is executed first; only when
`insert` returns `Some` (an app with that interface already existed) does
the function return an error — but by then the map already holds the NEW
app in place of the old one.  `Descriptor::register`
(`src/gatts/descriptor.rs:210-228`) commits `attributes.insert(handle, d)`
with the same insert-then-check pattern. -/

/-- An app entry of the `apps : GattInterface → App` map (identified by
its app id; the other fields are irrelevant to the claim). -/
structure AppEntry : Type where
  id : Nat
  deriving DecidableEq, Repr

/-- The commit step of `Gatts::register_app` (`src/gatts/mod.rs:209-221`):
`HashMap::insert` replaces unconditionally and returns the old binding;
`is_some()` on that old binding selects the error return.  Result: the
updated map and `result.is_ok()`. -/
def register_app_commit (apps : Nat → Option AppEntry) (interface : Nat)
    (app : AppEntry) : (Nat → Option AppEntry) × Bool :=
  (mapInsert apps interface app, (apps interface).isNone)

/-- The registry-commit step of `Descriptor::register`
(`src/gatts/descriptor.rs:215-226`): `attributes.insert(handle, self)`
followed by the `is_some()` duplicate check; the attribute capability is
identified by a token. -/
def descriptor_register_commit (attributes : Nat → Option Nat) (handle : Nat)
    (descr : Nat) : (Nat → Option Nat) × Bool :=
  (mapInsert attributes handle descr, (attributes handle).isNone)

/-- Apps map for C9: interface 7 already holds the app with id 1. -/
def c9Apps : Nat → Option AppEntry := fun i => if i = 7 then some ⟨1⟩ else none

/-- Attribute registry for C9: handle 9 already holds attribute token 1. -/
def c9Attrs : Nat → Option Nat := fun h => if h = 9 then some 1 else none

/-- C9: registering an app whose interface is already present fails, yet
the apps map is mutated — the old app (id 1) has been replaced by the new
one (id 2); likewise registering a descriptor on an occupied handle fails
yet the registry now holds the new descriptor.  The object graph is NOT
left as it was, contrary to the claim. -/
theorem c9_error_retains_partial_state :
    (register_app_commit c9Apps 7 ⟨2⟩).2 = false
    ∧ (register_app_commit c9Apps 7 ⟨2⟩).1 7 = some ⟨2⟩
    ∧ c9Apps 7 = some ⟨1⟩
    ∧ some (⟨2⟩ : AppEntry) ≠ some (⟨1⟩ : AppEntry)
    ∧ (descriptor_register_commit c9Attrs 9 2).2 = false
    ∧ (descriptor_register_commit c9Attrs 9 2).1 9 = some 2
    ∧ c9Attrs 9 = some 1 := by
  refine ⟨rfl, rfl, rfl, by simp, rfl, rfl, rfl⟩

/-! ## Auto-advertiser decision (C10)

`GapInner::check_if_need_start_advertising` (`src/gap/mod.rs:212-240`)
sums the connection-map sizes over all registered apps, reads
`config.max_connections` (erroring when it is None), and returns
`Ok(current_connection < max_connection)`.  The auto-advertising loop
(`src/gap/mod.rs:131-163`) runs it on every connection-status event and
invokes `start_advertising` exactly when it returned `Ok(true)` (an `Err`
hits the `let Ok(..) else continue`). -/

/-- Total open connections over all registered apps: each app contributes
`app.connections.read().unwrap().len()`; an app is represented by the
list of its connection ids. -/
def total_connections (apps : List (List Nat)) : Nat :=
  (apps.map List.length).sum

/-- `GapInner::check_if_need_start_advertising` (`src/gap/mod.rs:212-240`). -/
def check_if_need_start_advertising (apps : List (List Nat))
    (max_connections : Option Nat) : RustResult Bool :=
  let current_connection := total_connections apps
  match max_connections with
  | none => .err
  | some max_connection => .ok (decide (current_connection < max_connection))

/-- Whether the auto-advertising loop (`src/gap/mod.rs:143-158`) invokes
`start_advertising` on a connection-status event. -/
def auto_advertise_on_event (apps : List (List Nat))
    (max_connections : Option Nat) : Bool :=
  match check_if_need_start_advertising apps max_connections with
  | .ok b => b
  | .err => false

/-- C10: the decision predicate returns true — and the loop invokes
`start_advertising` on the next connection-status event — iff the total
number of open connections over all apps is strictly below
`max_connections`; with `max_connections = None` the predicate fails and
advertising is not started. -/
theorem c10_auto_advertise :
    ∀ (apps : List (List Nat)) (maxC : Nat),
      check_if_need_start_advertising apps (some maxC)
          = .ok (decide (total_connections apps < maxC))
      ∧ (auto_advertise_on_event apps (some maxC) = true
          ↔ total_connections apps < maxC)
      ∧ check_if_need_start_advertising apps none = .err
      ∧ auto_advertise_on_event apps none = false := by
  intro apps maxC
  refine ⟨rfl, ?_, rfl, rfl⟩
  simp [auto_advertise_on_event, check_if_need_start_advertising]

/-! ## Default primitive codecs (`src/gatts/attribute/defaults.rs`)

Each default codec is a wrapper implementing
`Attribute { get_bytes, from_bytes }`.  Multi-byte integers are
little-endian; fixed-width codecs reject byte strings of the wrong
length.  Machine integers are modelled as `Nat`/`Int` with their range as
a hypothesis; `f32` is modelled by its IEEE-754 bit pattern (`f32::to_le_bytes`
/ `from_le_bytes` are bit-exact), and Rust's `==` on `f32` (IEEE equality:
NaN unequal to everything, +0 == -0) is `rustF32Eq` on bit patterns. -/

/-- `u16::to_le_bytes` / `u32::to_le_bytes` byte extraction. -/
def u16_le_bytes (n : Nat) : List Nat := [n % 256, n / 256 % 256]

/-- Little-endian byte extraction for 32-bit values. -/
def u32_le_bytes (n : Nat) : List Nat :=
  [n % 256, n / 256 % 256, n / 65536 % 256, n / 16777216 % 256]

/-- `U8Attr(pub u8)`. -/
structure U8Attr : Type where
  val : Nat
  deriving DecidableEq, Repr

def U8Attr.get_bytes (v : U8Attr) : List Nat := [v.val]

def U8Attr.from_bytes : List Nat → RustResult U8Attr
  | [a] => .ok ⟨a⟩
  | _ => .err

/-- `U16Attr(pub u16)`, little-endian. -/
structure U16Attr : Type where
  val : Nat
  deriving DecidableEq, Repr

def U16Attr.get_bytes (v : U16Attr) : List Nat := u16_le_bytes v.val

def U16Attr.from_bytes : List Nat → RustResult U16Attr
  | [a, b] => .ok ⟨a + 256 * b⟩
  | _ => .err

/-- `U32Attr(pub u32)`, little-endian. -/
structure U32Attr : Type where
  val : Nat
  deriving DecidableEq, Repr

def U32Attr.get_bytes (v : U32Attr) : List Nat := u32_le_bytes v.val

def U32Attr.from_bytes : List Nat → RustResult U32Attr
  | [a, b, c, d] => .ok ⟨a + 256 * b + 65536 * c + 16777216 * d⟩
  | _ => .err

/-- `I8Attr(pub i8)`; `self.0 as u8` is the two's complement byte,
`bytes[0] as i8` reinterprets it. -/
structure I8Attr : Type where
  val : Int
  deriving DecidableEq, Repr

def I8Attr.get_bytes (v : I8Attr) : List Nat := [(v.val % 256).toNat]

def I8Attr.from_bytes : List Nat → RustResult I8Attr
  | [a] => .ok ⟨if a < 128 then (a : Int) else (a : Int) - 256⟩
  | _ => .err

/-- `I16Attr(pub i16)`, little-endian two's complement. -/
structure I16Attr : Type where
  val : Int
  deriving DecidableEq, Repr

def I16Attr.get_bytes (v : I16Attr) : List Nat := u16_le_bytes (v.val % 65536).toNat

def I16Attr.from_bytes : List Nat → RustResult I16Attr
  | [a, b] =>
    .ok ⟨if a + 256 * b < 32768 then ((a + 256 * b : Nat) : Int)
         else ((a + 256 * b : Nat) : Int) - 65536⟩
  | _ => .err

/-- `I32Attr(pub i32)`, little-endian two's complement. -/
structure I32Attr : Type where
  val : Int
  deriving DecidableEq, Repr

def I32Attr.get_bytes (v : I32Attr) : List Nat := u32_le_bytes (v.val % 4294967296).toNat

def I32Attr.from_bytes : List Nat → RustResult I32Attr
  | [a, b, c, d] =>
    .ok ⟨if a + 256 * b + 65536 * c + 16777216 * d < 2147483648 then
           ((a + 256 * b + 65536 * c + 16777216 * d : Nat) : Int)
         else ((a + 256 * b + 65536 * c + 16777216 * d : Nat) : Int) - 4294967296⟩
  | _ => .err

/-- `BoolAttr(pub bool)`: one byte, `1` for true, `0` for false; any
nonzero byte decodes to true. -/
structure BoolAttr : Type where
  val : Bool
  deriving DecidableEq, Repr

def BoolAttr.get_bytes (v : BoolAttr) : List Nat := [if v.val then 1 else 0]

def BoolAttr.from_bytes : List Nat → RustResult BoolAttr
  | [a] => .ok ⟨a != 0⟩
  | _ => .err

/-- `F32Attr(pub f32)` as its IEEE-754 single-precision bit pattern. -/
structure F32Attr : Type where
  bits : Nat
  deriving DecidableEq, Repr

def F32Attr.get_bytes (v : F32Attr) : List Nat := u32_le_bytes v.bits

def F32Attr.from_bytes : List Nat → RustResult F32Attr
  | [a, b, c, d] => .ok ⟨a + 256 * b + 65536 * c + 16777216 * d⟩
  | _ => .err

/-- A bit pattern is a NaN iff the exponent field (bits 23–30) is all
ones and the mantissa (bits 0–22) is nonzero. -/
def isNaNBits (b : Nat) : Bool := (b / 8388608 % 256 == 255) && (b % 8388608 != 0)

/-- A bit pattern denotes ±0.0 iff all bits except the sign are zero. -/
def isZeroBits (b : Nat) : Bool := b % 2147483648 == 0

/-- Rust `==` on `f32` (IEEE-754 equality) at the bit-pattern level:
NaNs are unequal to everything (including themselves); +0.0 == -0.0;
otherwise equal values have equal bit patterns. -/
def rustF32Eq (a b : Nat) : Bool :=
  !isNaNBits a && !isNaNBits b && (a == b || (isZeroBits a && isZeroBits b))

/-- Second byte of a UTF-8 multi-byte sequence: `0x80..=0xBF`. -/
def utf8_cont (b : Nat) : Bool := 128 ≤ b && b ≤ 191

/-- UTF-8 validity of a byte string (RFC 3629), the invariant of a Rust
`String` and the check performed by `String::from_utf8`. -/
def isValidUtf8 : List Nat → Bool
  | [] => true
  | b :: rest =>
    if b ≤ 127 then isValidUtf8 rest
    else if 194 ≤ b && b ≤ 223 then
      match rest with
      | b1 :: rest2 => utf8_cont b1 && isValidUtf8 rest2
      | [] => false
    else if b = 224 then
      match rest with
      | b1 :: b2 :: rest3 => (160 ≤ b1 && b1 ≤ 191) && utf8_cont b2 && isValidUtf8 rest3
      | _ => false
    else if (225 ≤ b && b ≤ 236) || b = 238 || b = 239 then
      match rest with
      | b1 :: b2 :: rest3 => utf8_cont b1 && utf8_cont b2 && isValidUtf8 rest3
      | _ => false
    else if b = 237 then
      match rest with
      | b1 :: b2 :: rest3 => (128 ≤ b1 && b1 ≤ 159) && utf8_cont b2 && isValidUtf8 rest3
      | _ => false
    else if b = 240 then
      match rest with
      | b1 :: b2 :: b3 :: rest4 =>
        (144 ≤ b1 && b1 ≤ 191) && utf8_cont b2 && utf8_cont b3 && isValidUtf8 rest4
      | _ => false
    else if 241 ≤ b && b ≤ 243 then
      match rest with
      | b1 :: b2 :: b3 :: rest4 =>
        utf8_cont b1 && utf8_cont b2 && utf8_cont b3 && isValidUtf8 rest4
      | _ => false
    else if b = 244 then
      match rest with
      | b1 :: b2 :: b3 :: rest4 =>
        (128 ≤ b1 && b1 ≤ 143) && utf8_cont b2 && utf8_cont b3 && isValidUtf8 rest4
      | _ => false
    else false

/-- `StringAttr(pub String)`: a Rust `String` is its UTF-8 byte content
with the validity invariant; `get_bytes` is `as_bytes().to_vec()` and
`from_bytes` is `String::from_utf8` (validity check). -/
structure StringAttr : Type where
  bytes : List Nat
  valid : isValidUtf8 bytes = true

def StringAttr.get_bytes (v : StringAttr) : List Nat := v.bytes

def StringAttr.from_bytes (bs : List Nat) : RustResult StringAttr :=
  if h : isValidUtf8 bs = true then .ok ⟨bs, h⟩ else .err

/-- `BytesAttr(pub Vec<u8>)`: the identity codec. -/
structure BytesAttr : Type where
  val : List Nat
  deriving DecidableEq, Repr

def BytesAttr.get_bytes (v : BytesAttr) : List Nat := v.val

def BytesAttr.from_bytes (bs : List Nat) : RustResult BytesAttr := .ok ⟨bs⟩

/-- C8 (amended): for each of the nine non-float default codecs,
`from_bytes(get_bytes(v))` succeeds and returns `v` (machine-integer
values carry their type's range); for `F32Attr`, `from_bytes(get_bytes(v))`
succeeds and returns the bit-identical value, which additionally compares
equal to `v` under Rust `f32` `==` whenever `v` is not a NaN. -/
theorem c8_roundtrip :
    (∀ v : U8Attr, v.val < 256 → U8Attr.from_bytes v.get_bytes = .ok v)
    ∧ (∀ v : U16Attr, v.val < 65536 → U16Attr.from_bytes v.get_bytes = .ok v)
    ∧ (∀ v : U32Attr, v.val < 4294967296 → U32Attr.from_bytes v.get_bytes = .ok v)
    ∧ (∀ v : I8Attr, -128 ≤ v.val → v.val ≤ 127 → I8Attr.from_bytes v.get_bytes = .ok v)
    ∧ (∀ v : I16Attr, -32768 ≤ v.val → v.val ≤ 32767 →
        I16Attr.from_bytes v.get_bytes = .ok v)
    ∧ (∀ v : I32Attr, -2147483648 ≤ v.val → v.val ≤ 2147483647 →
        I32Attr.from_bytes v.get_bytes = .ok v)
    ∧ (∀ v : BoolAttr, BoolAttr.from_bytes v.get_bytes = .ok v)
    ∧ (∀ v : F32Attr, v.bits < 4294967296 →
        F32Attr.from_bytes v.get_bytes = .ok v
        ∧ (isNaNBits v.bits = false → rustF32Eq v.bits v.bits = true))
    ∧ (∀ v : StringAttr, StringAttr.from_bytes v.get_bytes = .ok v)
    ∧ (∀ v : BytesAttr, BytesAttr.from_bytes v.get_bytes = .ok v) := by
  refine ⟨?_, ?_, ?_, ?_, ?_, ?_, ?_, ?_, ?_, ?_⟩
  · rintro ⟨n⟩ _
    rfl
  · rintro ⟨n⟩ h
    change n < 65536 at h
    simp only [U16Attr.get_bytes, u16_le_bytes, U16Attr.from_bytes, RustResult.ok.injEq,
      U16Attr.mk.injEq]
    omega
  · rintro ⟨n⟩ h
    change n < 4294967296 at h
    simp only [U32Attr.get_bytes, u32_le_bytes, U32Attr.from_bytes, RustResult.ok.injEq,
      U32Attr.mk.injEq]
    omega
  · rintro ⟨x⟩ h1 h2
    change -128 ≤ x at h1
    change x ≤ 127 at h2
    simp only [I8Attr.get_bytes, I8Attr.from_bytes, RustResult.ok.injEq, I8Attr.mk.injEq]
    split <;> omega
  · rintro ⟨x⟩ h1 h2
    change -32768 ≤ x at h1
    change x ≤ 32767 at h2
    simp only [I16Attr.get_bytes, u16_le_bytes, I16Attr.from_bytes, RustResult.ok.injEq,
      I16Attr.mk.injEq]
    split <;> omega
  · rintro ⟨x⟩ h1 h2
    change -2147483648 ≤ x at h1
    change x ≤ 2147483647 at h2
    simp only [I32Attr.get_bytes, u32_le_bytes, I32Attr.from_bytes, RustResult.ok.injEq,
      I32Attr.mk.injEq]
    split <;> omega
  · rintro ⟨b⟩
    cases b <;> rfl
  · rintro ⟨n⟩ h
    change n < 4294967296 at h
    refine ⟨?_, fun hn => ?_⟩
    · simp only [F32Attr.get_bytes, u32_le_bytes, F32Attr.from_bytes, RustResult.ok.injEq,
        F32Attr.mk.injEq]
      omega
    · simp [rustF32Eq, hn]
  · intro v
    simp only [StringAttr.get_bytes, StringAttr.from_bytes]
    rw [dif_pos v.valid]
  · intro v
    rfl

/-- C8 witness: concrete round trips for each codec (0x1234, 0x12345678,
-5, -300, -70000, true, the bit pattern of 1.0f32, the string "hi",
[1,2,3]). -/
theorem c8_roundtrip_witness :
    U8Attr.from_bytes (U8Attr.mk 7).get_bytes = .ok ⟨7⟩
    ∧ U16Attr.from_bytes (U16Attr.mk 4660).get_bytes = .ok ⟨4660⟩
    ∧ U32Attr.from_bytes (U32Attr.mk 305419896).get_bytes = .ok ⟨305419896⟩
    ∧ I8Attr.from_bytes (I8Attr.mk (-5)).get_bytes = .ok ⟨-5⟩
    ∧ I16Attr.from_bytes (I16Attr.mk (-300)).get_bytes = .ok ⟨-300⟩
    ∧ I32Attr.from_bytes (I32Attr.mk (-70000)).get_bytes = .ok ⟨-70000⟩
    ∧ BoolAttr.from_bytes (BoolAttr.mk true).get_bytes = .ok ⟨true⟩
    ∧ F32Attr.from_bytes (F32Attr.mk 1065353216).get_bytes = .ok ⟨1065353216⟩
    ∧ rustF32Eq 1065353216 1065353216 = true
    ∧ StringAttr.from_bytes (StringAttr.mk [104, 105] (by decide)).get_bytes
        = .ok (StringAttr.mk [104, 105] (by decide))
    ∧ BytesAttr.from_bytes (BytesAttr.mk [1, 2, 3]).get_bytes = .ok ⟨[1, 2, 3]⟩ :=
  ⟨c8_roundtrip.1 ⟨7⟩ (by decide),
   c8_roundtrip.2.1 ⟨4660⟩ (by decide),
   c8_roundtrip.2.2.1 ⟨305419896⟩ (by decide),
   c8_roundtrip.2.2.2.1 ⟨-5⟩ (by decide) (by decide),
   c8_roundtrip.2.2.2.2.1 ⟨-300⟩ (by decide) (by decide),
   c8_roundtrip.2.2.2.2.2.1 ⟨-70000⟩ (by decide) (by decide),
   c8_roundtrip.2.2.2.2.2.2.1 ⟨true⟩,
   (c8_roundtrip.2.2.2.2.2.2.2.1 ⟨1065353216⟩ (by decide)).1,
   (c8_roundtrip.2.2.2.2.2.2.2.1 ⟨1065353216⟩ (by decide)).2 (by decide),
   c8_roundtrip.2.2.2.2.2.2.2.2.1 (StringAttr.mk [104, 105] (by decide)),
   c8_roundtrip.2.2.2.2.2.2.2.2.2 ⟨[1, 2, 3]⟩⟩

/-- C8 counterexample: the claim as stated fails for `F32Attr` at a NaN.
The round trip through `to_le_bytes`/`from_le_bytes` returns the
bit-identical NaN (0x7FC00000), but under Rust `==` the result is NOT
equal to the original value: NaN != NaN. -/
theorem c8_nan_counterexample :
    F32Attr.from_bytes (F32Attr.mk 2143289344).get_bytes = .ok ⟨2143289344⟩
    ∧ rustF32Eq 2143289344 2143289344 = false := by
  constructor <;> decide
